import Mathlib

/-!
Verification of the `Unit` core of `pint/unit.py` against its specification.

The shallow embedding below translates the code of `src/pint/unit.py`.
External collaborators (the registry, the quantity type, the
`UnitsContainer` from `pint/util.py`, and the compat helpers) are not part
of the source tree; they enter the model either as abstract fields of a
`Registry` record or, where a claim needs their concrete behaviour, as
definitions modelled from the specification's description of them.
-/

set_option autoImplicit false

namespace Pint

/-- Modelled from the spec: `UnitsContainer` (external, `pint/util.py`) is an
immutable mapping from unit name to a numeric exponent.  We model it as an
association list from names to rational exponents; lookup of an absent key
yields exponent 0. -/
abbrev UCont := List (String × Rat)

/-- Exponent of a unit name in a container (0 when absent). -/
def ucGet (c : UCont) (k : String) : Rat :=
  match c.find? (fun p => p.1 == k) with
  | some p => p.2
  | none => 0

/-- Modelled from the spec: container multiplication/division combine the two
exponent maps elementwise (`f` is addition for `*`, subtraction for `/`),
pruning zero exponents — "zero-exponent pruning is the container's
responsibility". -/
def ucCombine (f : Rat → Rat → Rat) (a b : UCont) : UCont :=
  ((a.map Prod.fst ++ b.map Prod.fst).dedup).filterMap
    (fun k => if f (ucGet a k) (ucGet b k) = 0 then none
              else some (k, f (ucGet a k) (ucGet b k)))

/-- Modelled from the spec: container multiplication is exponent addition. -/
def ucMul (a b : UCont) : UCont := ucCombine (fun x y => x + y) a b

/-- Modelled from the spec: container division is exponent subtraction. -/
def ucDiv (a b : UCont) : UCont := ucCombine (fun x y => x - y) a b

/-- Modelled from the spec: container exponentiation scales every exponent. -/
def ucPow (c : UCont) (n : Rat) : UCont := c.map (fun p => (p.1, p.2 * n))

/-- Errors surfaced by the embedded code.  `dimensionalityError` models
`pint.errors.DimensionalityError`, `typeError` a Python `TypeError` (the
spec's `UnsupportedExponent` and `InvalidUnitInput`), `valueError` a Python
`ValueError` (the spec's `MissingLocale` and the strict-mode error of
`from_`), and `otherError` any unrelated exception. -/
inductive PintError where
  | dimensionalityError
  | typeError (msg : String)
  | valueError (msg : String)
  | otherError (code : Nat)
deriving DecidableEq, Repr

/-- Modelled from the spec: the external `Quantity` collaborator is a numeric
magnitude paired with a unit container. -/
structure Quantity where
  mag : Rat
  units : UCont
deriving DecidableEq, Repr

/-- The `Unit` value of `pint/unit.py`: it wraps one `UnitsContainer`
(`self._units`, field `units`), the lazily written dimensionality cache slot
(`self._dimensionality`, absent ↦ `none`), and the debug flag
(`self.__used`, field `used`). -/
structure Unit where
  units : UCont
  cachedDim : Option UCont
  used : Bool
deriving DecidableEq, Repr

/-- Operand of `Unit.is_compatible_with`.  `unitOperand`/`quantity` are the
`isinstance(other, (Quantity, Unit))` cases, `strOperand` the string case,
`numOperand`/`foreign` everything else. -/
inductive CompatOperand where
  | unitOperand (b : Unit)
  | quantity (q : Quantity)
  | strOperand (s : String)
  | numOperand (n : Rat)
  | foreign (t : String)
deriving DecidableEq, Repr

/-- Operand of `Unit.__mul__`/`__truediv__`.  `unitSame` is the
`self._check(other)`-and-same-class case, `quantity` the other
shared-registry case; `numOperand` a plain number; `foreign` any other
object (for which `self._check` is false), carrying its printed type. -/
inductive MulOperand where
  | unitSame (b : Unit)
  | quantity (q : Quantity)
  | numOperand (n : Rat)
  | foreign (t : String)
deriving DecidableEq, Repr

/-- Result of `Unit.__mul__`/`__truediv__`: a Unit or a Quantity. -/
inductive UQ where
  | unit (u : Unit)
  | quantity (q : Quantity)
deriving DecidableEq, Repr

/-- Exponent of `Unit.__pow__`: a number (`NUMERIC_TYPES`) or anything else,
carrying its printed type. -/
inductive PowOperand where
  | numOperand (n : Rat)
  | nonNum (t : String)
deriving DecidableEq, Repr

/-- Operand of `Unit.__eq__`: a same-class Unit, a Quantity
(`self._check` true), a plain number (`NUMERIC_TYPES`), a raw
`UnitsContainer`, or any other object. -/
inductive EqOperand where
  | unitSame (b : Unit)
  | quantity (q : Quantity)
  | numOperand (n : Rat)
  | container (c : UCont)
  | foreign (t : String)
deriving DecidableEq, Repr

/-- Value passed to `Unit.from_`/`m_from`: a Quantity or a Unit
(`self._check(value)` true), a plain number, or a foreign object. -/
inductive FromOperand where
  | quantity (q : Quantity)
  | unitOperand (u : Unit)
  | numOperand (n : Rat)
  | foreign (t : String)
deriving DecidableEq, Repr

/-- Result of `Unit.from_`: a Quantity, or the external value produced by
multiplying a foreign non-strict value by the unit. -/
inductive FromResult where
  | q (q : Quantity)
  | ext (x : String)
deriving DecidableEq, Repr

/-- An operand of an `__array_ufunc__` dispatch: whether it is (identically)
`self`, whether it defines `__array_ufunc__` (the `hasattr` filter of the
source), and its type's name (fed to `is_upcast_type`). -/
structure ArrArg where
  isSelf : Bool
  hasUfunc : Bool
  typeName : String
deriving DecidableEq, Repr

/-- An operand of the redispatched ufunc call: either an original argument
or the substituted unit-magnitude Quantity. -/
inductive DispArg where
  | plain (a : ArrArg)
  | qOne (q : Quantity)
deriving DecidableEq, Repr

/-- Result of `Unit.__array_ufunc__`: the `NotImplemented` sentinel, or a
redispatch of the named ufunc on substituted inputs with the original
keyword values. -/
inductive UfResult where
  | notImplemented
  | redispatch (ufname : String) (inputs : List DispArg) (kwargsVals : List ArrArg)
deriving DecidableEq, Repr

/-- The external collaborators of `Unit`, bundled: the bound registry, the
Quantity type's operations and the compat helpers.  Every field is an
abstract behaviour the source delegates to; claims quantify over it. -/
structure Registry where
  /-- `registry.parse_units(s)._units`. -/
  parse_units : String → UCont
  /-- `registry._get_dimensionality(container)`. -/
  get_dimensionality : UCont → UCont
  /-- `registry.fmt_locale`, the registry-wide default locale. -/
  fmt_locale : Option String
  /-- Whether `registry._active_ctx` (the active-context stack) is non-empty. -/
  active_ctx : Bool
  /-- `registry._get_symbol(name)`. -/
  get_symbol : String → String
  /-- `container.format_babel(spec, registry, locale)`, the external localized renderer. -/
  render_babel : UCont → String → String → String
  /-- `Quantity.to(other, *contexts)`: the real conversion attempted by `is_compatible_with`. -/
  qto : Quantity → CompatOperand → List String → Except PintError Quantity
  /-- `Quantity.to(self)` with a target unit container, used by `from_`. -/
  to_units : Quantity → UCont → Except PintError Quantity
  /-- `Quantity.__mul__` with a non-Unit operand. -/
  qmul : Quantity → MulOperand → Quantity
  /-- `Quantity.__truediv__` with a non-Unit operand. -/
  qdiv : Quantity → MulOperand → Quantity
  /-- `Quantity.__eq__` between two quantities. -/
  qeq : Quantity → Quantity → Bool
  /-- `UnitsContainer.__eq__` against a non-container, non-number object. -/
  ucEqForeign : UCont → String → Bool
  /-- `pint.compat.is_upcast_type`, keyed by type name. -/
  isUpcast : String → Bool
  /-- The external product `foreign_value * unit` of the non-strict `from_` path. -/
  foreignMul : String → UCont → String
  /-- `.magnitude` of an external (non-Quantity) value; may fail. -/
  extMagnitude : String → Except PintError Rat
  /-- `1 / foreign_value`, the reciprocal taken by `__truediv__`'s fallback. -/
  recipForeign : String → Rat
  /-- `pint.formatting.extract_custom_flags`. -/
  extract_custom_flags : String → String

/-- `Unit.dimensionality` (read-only view): serve the cached value when the
`_dimensionality` slot is set, else delegate the owned container to
`registry._get_dimensionality`.  The state-updating variant is
`Unit.dimensionality_read` below. -/
def Unit.dimensionality (reg : Registry) (u : Unit) : UCont :=
  match u.cachedDim with
  | some d => d
  | none => reg.get_dimensionality u.units

/-- `Unit.dimensionality` as the property access executes: returns the value,
the instance afterwards (the cache slot written on a miss), and how many
times `registry._get_dimensionality` was invoked by this read. -/
def Unit.dimensionality_read (reg : Registry) (u : Unit) : UCont × Unit × Nat :=
  match u.cachedDim with
  | some d => (d, u, 0)
  | none =>
      let d := reg.get_dimensionality u.units
      (d, { u with cachedDim := some d }, 1)

/-- `Unit.dimensionless`: `not bool(self.dimensionality)`. -/
def Unit.dimensionless (reg : Registry) (u : Unit) : Bool :=
  (Unit.dimensionality reg u).isEmpty

/-- `number * unit` as Python dispatches it (`Unit.__rmul__ = __mul__`):
the `other == 1` short-circuit builds `Quantity(other, self._units)`
directly, any other number goes through `Quantity(1, self._units) * other`. -/
def Unit.rmulNum (reg : Registry) (self : Unit) (n : Rat) : Quantity :=
  if n = 1 then ⟨n, self.units⟩ else reg.qmul ⟨1, self.units⟩ (.numOperand n)

/-- `Unit.__mul__`. -/
def Unit.mul (reg : Registry) (self : Unit) (other : MulOperand) : UQ :=
  match other with
  | .unitSame b => .unit ⟨ucMul self.units b.units, none, false⟩
  | .quantity q => .quantity (reg.qmul ⟨1, self.units⟩ (.quantity q))
  | .numOperand n => .quantity (Unit.rmulNum reg self n)
  | .foreign t => .quantity (reg.qmul ⟨1, self.units⟩ (.foreign t))

/-- `Unit.__rmul__`, the class-level alias `__rmul__ = __mul__`. -/
def Unit.rmul : Registry → Unit → MulOperand → UQ := Unit.mul

/-- `Unit.__truediv__`. -/
def Unit.div (reg : Registry) (self : Unit) (other : MulOperand) : UQ :=
  match other with
  | .unitSame b => .unit ⟨ucDiv self.units b.units, none, false⟩
  | .quantity q => .quantity (reg.qdiv ⟨1, self.units⟩ (.quantity q))
  | .numOperand n => .quantity ⟨1 / n, self.units⟩
  | .foreign t => .quantity ⟨reg.recipForeign t, self.units⟩

/-- `Unit.__pow__`: numeric exponents scale the container, anything else
raises `TypeError("Cannot power Unit by {type}")`. -/
def Unit.pow (self : Unit) (other : PowOperand) : Except PintError Unit :=
  match other with
  | .numOperand n => .ok ⟨ucPow self.units n, none, false⟩
  | .nonNum t => .error (.typeError ("Cannot power Unit by " ++ t))

/-- Modelled from the spec: `Quantity.__eq__` against a plain number (the
quantity type is external, `pint/quantity.py`).  Per the spec, equality with
a number holds exactly when the quantity is dimensionless and its magnitude
equals that number under the numeric comparison. -/
def quantityEqNum (reg : Registry) (q : Quantity) (n : Rat) : Bool :=
  (reg.get_dimensionality q.units).isEmpty && decide (q.mag = n)

/-- `Unit.__eq__`. -/
def Unit.eq (reg : Registry) (self : Unit) (other : EqOperand) : Bool :=
  match other with
  | .unitSame b => decide (self.units = b.units)
  | .quantity q => reg.qeq q ⟨1, self.units⟩
  | .numOperand n => quantityEqNum reg ⟨1, self.units⟩ n
  | .container c => decide (self.units = c)
  | .foreign t => reg.ucEqForeign self.units t

/-- `Unit.__ne__`: `not (self == other)`. -/
def Unit.ne (reg : Registry) (self : Unit) (other : EqOperand) : Bool :=
  !(Unit.eq reg self other)

/-- `Unit.is_compatible_with`. -/
def Unit.is_compatible_with (reg : Registry) (self : Unit) (other : CompatOperand)
    (contexts : List String) : Except PintError Bool :=
  if contexts ≠ [] ∨ reg.active_ctx then
    match reg.qto ⟨1, self.units⟩ other contexts with
    | .ok _ => .ok true
    | .error .dimensionalityError => .ok false
    | .error e => .error e
  else
    match other with
    | .quantity q => .ok (decide (Unit.dimensionality reg self = reg.get_dimensionality q.units))
    | .unitOperand b => .ok (decide (Unit.dimensionality reg self = Unit.dimensionality reg b))
    | .strOperand s => .ok (decide (Unit.dimensionality reg self
        = reg.get_dimensionality (reg.parse_units s)))
    | .numOperand _ => .ok (Unit.dimensionless reg self)
    | .foreign _ => .ok (Unit.dimensionless reg self)

/-- `Unit.default_format`. -/
def Unit.default_format : String := ""

/-- The symbol-substituted container built by the short-form branch of the
formatting methods. -/
def ucSymbols (reg : Registry) (c : UCont) : UCont :=
  c.map (fun p => (reg.get_symbol p.1, p.2))

/-- Locale resolution of `format_babel`: the explicit argument, else the
registry-wide `fmt_locale`. -/
def resolveLocale (reg : Registry) (loc : Option String) : Option String :=
  match loc with
  | none => reg.fmt_locale
  | some l => some l

/-- The effective spec of `format_babel`:
`spec = spec or extract_custom_flags(self.default_format)`. -/
def effSpec (reg : Registry) (spec0 : String) : String :=
  if spec0 = "" then reg.extract_custom_flags Unit.default_format else spec0

/-- `Unit.format_babel`. -/
def Unit.format_babel (reg : Registry) (self : Unit) (spec0 : String)
    (loc : Option String) : Except PintError String :=
  let spec := effSpec reg spec0
  if spec.data.contains '~' then
    if Unit.dimensionless reg self then .ok ""
    else
      match resolveLocale reg loc with
      | none => .error (.valueError ("Provide a `locale` value to localize translation."))
      | some l => .ok (reg.render_babel (ucSymbols reg self.units) (spec.replace ("~") ("")) l)
  else
    match resolveLocale reg loc with
    | none => .error (.valueError ("Provide a `locale` value to localize translation."))
    | some l => .ok (reg.render_babel self.units spec l)

/-- `Unit.__array_ufunc__`. -/
def Unit.array_ufunc (reg : Registry) (self : Unit) (ufname method : String)
    (inputs kwargsVals : List ArrArg) : UfResult :=
  if method ≠ "__call__" then .notImplemented
  else if (inputs ++ kwargsVals).any (fun a => a.hasUfunc && reg.isUpcast a.typeName) then
    .notImplemented
  else if ufname = "true_divide" ∨ ufname = "divide" ∨ ufname = "floor_divide"
      ∨ ufname = "multiply" then
    .redispatch ufname
      (inputs.map (fun a => if a.isSelf then DispArg.qOne ⟨1, self.units⟩ else .plain a))
      kwargsVals
  else .notImplemented

/-- `Unit.from_`. -/
def Unit.from_ (reg : Registry) (self : Unit) (value : FromOperand) (strict : Bool) :
    Except PintError FromResult :=
  match value with
  | .quantity q => (reg.to_units q self.units).map FromResult.q
  | .unitOperand u => (reg.to_units ⟨1, u.units⟩ self.units).map FromResult.q
  | .numOperand n =>
      if strict then .error (.valueError (toString n ++ " must be a Quantity"))
      else .ok (.q (Unit.rmulNum reg self n))
  | .foreign t =>
      if strict then .error (.valueError (t ++ " must be a Quantity"))
      else .ok (.ext (reg.foreignMul t self.units))

/-- `.magnitude` of a `from_` result: the quantity's magnitude, or the
external attribute access on a foreign product. -/
def FromResult.magnitude (reg : Registry) (r : FromResult) : Except PintError Rat :=
  match r with
  | FromResult.q a => .ok a.mag
  | FromResult.ext x => reg.extMagnitude x

/-- `Unit.m_from`: `self.from_(value, strict, name).magnitude`. -/
def Unit.m_from (reg : Registry) (self : Unit) (value : FromOperand) (strict : Bool) :
    Except PintError Rat :=
  (Unit.from_ reg self value strict).bind (FromResult.magnitude reg)

/-- `Unit.__init__` given a raw `UnitsContainer`: the container is stored. -/
def Unit.fromContainer (c : UCont) : Unit := ⟨c, none, false⟩

/-- `Unit.__init__` given a string: `self._REGISTRY.parse_units(units)._units`. -/
def Unit.fromStr (reg : Registry) (s : String) : Unit := ⟨reg.parse_units s, none, false⟩

/-- A small concrete registry used to instantiate theorems: it knows the
units `meter`, `second` and `radian`, where `radian` reduces to the empty
dimensionality (as in the real registry), has no default locale, and an
empty active-context stack.  The abstract quantity operations are stubs. -/
def demoReg : Registry where
  parse_units := fun s =>
    if s = "meter" then [("meter", 1)]
    else if s = "second" then [("second", 1)]
    else if s = "radian" then [("radian", 1)]
    else []
  get_dimensionality := fun c =>
    if c = [] then []
    else if c = [("meter", 1)] then [("[length]", 1)]
    else if c = [("second", 1)] then [("[time]", 1)]
    else if c = [("radian", 1)] then []
    else c
  fmt_locale := none
  active_ctx := false
  get_symbol := fun s => if s = "meter" then "m" else s
  render_babel := fun _ _ _ => "rendered"
  qto := fun _ _ _ => .error .dimensionalityError
  to_units := fun q _ => .ok q
  qmul := fun q _ => q
  qdiv := fun q _ => q
  qeq := fun a b => decide (a = b)
  ucEqForeign := fun _ _ => false
  isUpcast := fun t => decide (t = "DaskArray")
  foreignMul := fun t _ => t
  extMagnitude := fun _ => .ok 0
  recipForeign := fun _ => 0
  extract_custom_flags := fun s => s

/-- `demoReg` with a non-empty active-context stack. -/
def ctxReg : Registry := { demoReg with active_ctx := true }

/-- `demoReg` after its dimension tables changed: every container now
reduces to `[mass]`.  Used to exhibit cache staleness. -/
def demoReg2 : Registry := { demoReg with get_dimensionality := fun _ => [("[mass]", 1)] }

/-- `Unit('meter')` over the demo registry. -/
def meterUnit : Unit := Unit.fromStr demoReg ("meter")

/-- `Unit('')` over the demo registry. -/
def emptyUnit : Unit := Unit.fromStr demoReg ("")

/-- A Unit built from the non-empty container `{radian: 1}`. -/
def radianUnit : Unit := Unit.fromContainer [("radian", 1)]

/-- An `__array_ufunc__` operand that is `self` (the Unit class defines
`__array_ufunc__`, and is not an upcast type). -/
def selfArg : ArrArg := ⟨true, true, "Unit"⟩

/-- An operand of a registry-recognized upcast type that does not define
`__array_ufunc__`: it escapes the `hasattr` filter of the source. -/
def upcastNoAttrArg : ArrArg := ⟨false, false, "DaskArray"⟩

/-- An operand of a registry-recognized upcast type that defines
`__array_ufunc__`. -/
def upcastAttrArg : ArrArg := ⟨false, true, "DaskArray"⟩

theorem ucGet_nil (k : String) : ucGet [] k = 0 := rfl

theorem ucGet_cons (x : String × Rat) (xs : UCont) (k : String) :
    ucGet (x :: xs) k = if x.1 = k then x.2 else ucGet xs k := by
  by_cases h : x.1 = k
  · simp [ucGet, List.find?, h]
  · have hb : (x.1 == k) = false := beq_eq_false_iff_ne.mpr h
    simp [ucGet, List.find?, hb, h]

theorem ucGet_filterMap_keys (g : String → Rat) (l : List String) (k : String) :
    ucGet (l.filterMap (fun x => if g x = 0 then none else some (x, g x))) k
      = if k ∈ l then g k else 0 := by
  induction l with
  | nil => simp [ucGet]
  | cons x xs ih =>
    by_cases hg : g x = 0
    · rw [show (List.filterMap (fun x => if g x = 0 then none else some (x, g x)) (x :: xs))
          = List.filterMap (fun x => if g x = 0 then none else some (x, g x)) xs by
            simp [List.filterMap_cons, hg]]
      rw [ih]
      by_cases hk : k = x
      · subst hk
        by_cases hx : k ∈ xs
        · simp [hx]
        · simp [hx, hg]
      · simp [List.mem_cons, hk]
    · rw [show (List.filterMap (fun x => if g x = 0 then none else some (x, g x)) (x :: xs))
          = (x, g x) :: List.filterMap (fun x => if g x = 0 then none else some (x, g x)) xs by
            simp [List.filterMap_cons, hg]]
      rw [ucGet_cons]
      by_cases hk : x = k
      · subst hk
        simp
      · rw [if_neg hk, ih]
        have hk' : ¬ k = x := fun h => hk h.symm
        simp [List.mem_cons, hk']

theorem ucGet_eq_zero_of_not_mem (c : UCont) (k : String)
    (h : k ∉ c.map Prod.fst) : ucGet c k = 0 := by
  induction c with
  | nil => rfl
  | cons x xs ih =>
    rw [ucGet_cons]
    simp only [List.map_cons, List.mem_cons] at h
    push_neg at h
    rw [if_neg (fun hh => h.1 hh.symm), ih h.2]

theorem ucGet_ucCombine (f : Rat → Rat → Rat) (hf : f 0 0 = 0)
    (a b : UCont) (k : String) :
    ucGet (ucCombine f a b) k = f (ucGet a k) (ucGet b k) := by
  unfold ucCombine
  rw [ucGet_filterMap_keys]
  by_cases h : k ∈ (a.map Prod.fst ++ b.map Prod.fst).dedup
  · rw [if_pos h]
  · rw [if_neg h]
    rw [List.mem_dedup, List.mem_append] at h
    push_neg at h
    rw [ucGet_eq_zero_of_not_mem a k h.1, ucGet_eq_zero_of_not_mem b k h.2, hf]

theorem ucGet_ucMul (a b : UCont) (k : String) :
    ucGet (ucMul a b) k = ucGet a k + ucGet b k :=
  ucGet_ucCombine _ (by norm_num) a b k

theorem ucGet_ucDiv (a b : UCont) (k : String) :
    ucGet (ucDiv a b) k = ucGet a k - ucGet b k :=
  ucGet_ucCombine _ (by norm_num) a b k

theorem ucGet_ucPow (c : UCont) (n : Rat) (k : String) :
    ucGet (ucPow c n) k = ucGet c k * n := by
  induction c with
  | nil => simp [ucPow, ucGet]
  | cons x xs ih =>
    rw [ucPow, List.map_cons, ucGet_cons, ucGet_cons]
    by_cases h : x.1 = k
    · simp [h]
    · rw [if_neg h, if_neg h, ← ih]
      rfl

/-- C2: for Units `A` and `B` of the same concrete class, `(A * B).units` is
the elementwise exponent-sum of the two containers and the result is a Unit
of that class, and `(A / B).units` is the elementwise exponent-difference. -/
theorem unit_mul_div_elementwise (reg : Registry) (A B : Unit) :
    (∃ U : Unit, Unit.mul reg A (.unitSame B) = .unit U ∧
        ∀ k, ucGet U.units k = ucGet A.units k + ucGet B.units k) ∧
    (∃ V : Unit, Unit.div reg A (.unitSame B) = .unit V ∧
        ∀ k, ucGet V.units k = ucGet A.units k - ucGet B.units k) :=
  ⟨⟨⟨ucMul A.units B.units, none, false⟩, rfl, fun k => ucGet_ucMul A.units B.units k⟩,
   ⟨⟨ucDiv A.units B.units, none, false⟩, rfl, fun k => ucGet_ucDiv A.units B.units k⟩⟩

/-- C3: `(A ** n).units` scales every exponent of `A`'s container by the
numeric exponent `n` and yields a new Unit of the same class; a non-numeric
exponent fails with a TypeError-class error whose message names its type. -/
theorem unit_pow_scales_and_rejects (A : Unit) :
    (∀ n : Rat, ∃ U : Unit, Unit.pow A (.numOperand n) = .ok U ∧
        ∀ k, ucGet U.units k = ucGet A.units k * n) ∧
    (∀ t, Unit.pow A (.nonNum t)
        = .error (.typeError ("Cannot power Unit by " ++ t))) :=
  ⟨fun n => ⟨⟨ucPow A.units n, none, false⟩, rfl, fun k => ucGet_ucPow A.units n k⟩,
   fun _ => rfl⟩

/-- C10: reverse multiplication is literally the forward multiplication:
`__rmul__` is a class-level alias of `__mul__`, so for every Unit `u` and
operand `x` the reflected product equals `u * x`. -/
theorem rmul_is_mul (reg : Registry) (u : Unit) (x : MulOperand) :
    Unit.rmul reg u x = Unit.mul reg u x := rfl

/-- C1: `is_compatible_with` follows the three-tier precedence.  With
explicit contexts or a non-empty active-context stack it attempts a real
conversion of a unit-magnitude quantity of `self` into `other`: success
yields `True`, a dimensionality-mismatch error yields `False`, and any
other error propagates.  Otherwise a Unit or Quantity operand is compared
by dimensionality, a string operand by the dimensionality of its
registry-parse, and any other operand yields `self.dimensionless`. -/
theorem is_compatible_with_three_tier (reg : Registry) (self : Unit)
    (other : CompatOperand) (contexts : List String) :
    ((contexts ≠ [] ∨ reg.active_ctx = true) →
      ((∃ q, reg.qto ⟨1, self.units⟩ other contexts = .ok q) →
          Unit.is_compatible_with reg self other contexts = .ok true) ∧
      (reg.qto ⟨1, self.units⟩ other contexts = .error .dimensionalityError →
          Unit.is_compatible_with reg self other contexts = .ok false) ∧
      (∀ e, reg.qto ⟨1, self.units⟩ other contexts = .error e →
          e ≠ PintError.dimensionalityError →
          Unit.is_compatible_with reg self other contexts = .error e)) ∧
    (contexts = [] → reg.active_ctx = false →
      ((∀ b, other = .unitOperand b →
          Unit.is_compatible_with reg self other contexts
            = .ok (decide (Unit.dimensionality reg self = Unit.dimensionality reg b))) ∧
       (∀ q, other = .quantity q →
          Unit.is_compatible_with reg self other contexts
            = .ok (decide (Unit.dimensionality reg self = reg.get_dimensionality q.units))) ∧
       (∀ s, other = .strOperand s →
          Unit.is_compatible_with reg self other contexts
            = .ok (decide (Unit.dimensionality reg self
                = reg.get_dimensionality (reg.parse_units s)))) ∧
       (∀ n, other = .numOperand n →
          Unit.is_compatible_with reg self other contexts
            = .ok (Unit.dimensionless reg self)) ∧
       (∀ t, other = .foreign t →
          Unit.is_compatible_with reg self other contexts
            = .ok (Unit.dimensionless reg self)))) := by
  constructor
  · intro hc
    have hrw : Unit.is_compatible_with reg self other contexts
        = match reg.qto ⟨1, self.units⟩ other contexts with
          | .ok _ => .ok true
          | .error .dimensionalityError => .ok false
          | .error e => .error e := by
      unfold Unit.is_compatible_with
      rw [if_pos hc]
    refine ⟨?_, ?_, ?_⟩
    · rintro ⟨q, hq⟩
      rw [hrw, hq]
    · intro hq
      rw [hrw, hq]
    · intro e hq hne
      rw [hrw, hq]
      cases e with
      | dimensionalityError => exact absurd rfl hne
      | typeError m => rfl
      | valueError m => rfl
      | otherError c => rfl
  · intro h1 h2
    have hc : ¬(contexts ≠ [] ∨ reg.active_ctx = true) := by
      simp [h1, h2]
    refine ⟨?_, ?_, ?_, ?_, ?_⟩ <;>
      · intro x hx
        subst hx
        unfold Unit.is_compatible_with
        rw [if_neg hc]

/-- C1 witness: with no contexts and an empty stack a plain number yields
`self.dimensionless` (false for meter); with an active context the stubbed
conversion's dimensionality error yields `False`. -/
theorem is_compatible_with_three_tier_inst :
    Unit.is_compatible_with demoReg meterUnit (.numOperand 2) [] = .ok false ∧
    Unit.is_compatible_with ctxReg meterUnit (.unitOperand emptyUnit) [] = .ok false := by
  constructor
  · have h := ((is_compatible_with_three_tier demoReg meterUnit (.numOperand 2) []).2
      rfl rfl).2.2.2.1 2 rfl
    rw [h]
    rfl
  · exact ((is_compatible_with_three_tier ctxReg meterUnit (.unitOperand emptyUnit) []).1
      (Or.inr rfl)).2.1 rfl

/-- C5: the first read of `dimensionality` invokes the registry's dimension
reduction exactly once and caches the result; a later read — even under a
registry whose dimension tables changed — returns the identical cached
container, leaves the instance unchanged, and performs no registry call. -/
theorem dimensionality_cached_once (reg1 reg2 : Registry) (u : Unit)
    (h : u.cachedDim = none) :
    (Unit.dimensionality_read reg1 u).1 = reg1.get_dimensionality u.units ∧
    (Unit.dimensionality_read reg1 u).2.2 = 1 ∧
    (Unit.dimensionality_read reg2 (Unit.dimensionality_read reg1 u).2.1).1
      = (Unit.dimensionality_read reg1 u).1 ∧
    (Unit.dimensionality_read reg2 (Unit.dimensionality_read reg1 u).2.1).2.1
      = (Unit.dimensionality_read reg1 u).2.1 ∧
    (Unit.dimensionality_read reg2 (Unit.dimensionality_read reg1 u).2.1).2.2 = 0 := by
  simp [Unit.dimensionality_read, h]

/-- C5 witness: a fresh `meter` unit caches `[length]` on first read under
`demoReg`; re-reading under `demoReg2` (whose tables now map everything to
`[mass]`) still returns the stale cached `[length]`. -/
theorem dimensionality_cached_once_inst :
    (Unit.dimensionality_read demoReg2 (Unit.dimensionality_read demoReg meterUnit).2.1).1
      = [("[length]", 1)] ∧
    demoReg2.get_dimensionality meterUnit.units = [("[mass]", 1)] := by
  constructor
  · have h := dimensionality_cached_once demoReg demoReg2 meterUnit rfl
    rw [h.2.2.1, h.1]
    rfl
  · rfl

/-- C6: `from_` converts quantity-like values into `self`'s unit, coercing a
quantity-like non-Quantity (a Unit) to `Quantity(1, value)` first; a value
that is not quantity-like raises a ValueError naming the value in strict
mode and is returned as `value * self` otherwise; `m_from` is `from_`
followed by magnitude extraction. -/
theorem from_and_m_from (reg : Registry) (self : Unit) :
    (∀ (q : Quantity) (strict : Bool), Unit.from_ reg self (.quantity q) strict
        = (reg.to_units q self.units).map FromResult.q) ∧
    (∀ (u : Unit) (strict : Bool), Unit.from_ reg self (.unitOperand u) strict
        = (reg.to_units ⟨1, u.units⟩ self.units).map FromResult.q) ∧
    (∀ n : Rat, Unit.from_ reg self (.numOperand n) true
        = .error (.valueError (toString n ++ " must be a Quantity"))) ∧
    (∀ t, Unit.from_ reg self (.foreign t) true
        = .error (.valueError (t ++ " must be a Quantity"))) ∧
    (∀ n : Rat, Unit.from_ reg self (.numOperand n) false
        = .ok (.q (Unit.rmulNum reg self n))) ∧
    (∀ t, Unit.from_ reg self (.foreign t) false
        = .ok (.ext (reg.foreignMul t self.units))) ∧
    (∀ (value : FromOperand) (strict : Bool), Unit.m_from reg self value strict
        = (Unit.from_ reg self value strict).bind (FromResult.magnitude reg)) :=
  ⟨fun _ _ => rfl, fun _ _ => rfl, fun _ => rfl, fun _ => rfl, fun _ => rfl,
   fun _ => rfl, fun _ _ => rfl⟩

/-- C8: equality with a plain number is evaluated against the unit-magnitude
quantity `Quantity(1, self)` — so `Unit('') == 1` is True and
`Unit('meter') == 1` is False; an operand that is neither quantity-like nor
a number is compared directly against the container; inequality is always
the logical negation of equality. -/
theorem unit_eq_semantics (reg : Registry) (self : Unit) :
    (∀ n : Rat, Unit.eq reg self (.numOperand n) = quantityEqNum reg ⟨1, self.units⟩ n) ∧
    Unit.eq demoReg emptyUnit (.numOperand 1) = true ∧
    Unit.eq demoReg meterUnit (.numOperand 1) = false ∧
    (∀ c : UCont, Unit.eq reg self (.container c) = decide (self.units = c)) ∧
    (∀ t, Unit.eq reg self (.foreign t) = reg.ucEqForeign self.units t) ∧
    (∀ other, Unit.ne reg self other = !(Unit.eq reg self other)) :=
  ⟨fun _ => rfl, rfl, rfl, fun _ => rfl, fun _ => rfl, fun _ => rfl⟩

/-- C9 counterexample: the Unit built from the non-empty container
`{radian: 1}` reports dimensionless, because the registry reduces radian to
the empty dimensionality — refuting "dimensionless iff the container is
empty". -/
theorem dimensionless_nonempty_counterexample :
    Unit.dimensionless demoReg radianUnit = true ∧ radianUnit.units ≠ [] :=
  ⟨rfl, by decide⟩

/-- C9 (amended): `Unit(C).dimensionless` is True iff the registry's
dimension reduction of `C` is the empty container; a non-empty `C` whose
dimensions cancel also reports dimensionless. -/
theorem dimensionless_iff_reduction_empty (reg : Registry) (C : UCont) :
    (Unit.dimensionless reg (Unit.fromContainer C) = true)
      ↔ reg.get_dimensionality C = [] := by
  show (reg.get_dimensionality C).isEmpty = true ↔ reg.get_dimensionality C = []
  cases reg.get_dimensionality C <;> simp

/-- C4 counterexample: with no explicit locale and no registry default
(`demoReg.fmt_locale = none`), `format_babel` on a dimensionless unit with a
short-form spec returns the empty string instead of failing with
MissingLocale. -/
theorem format_babel_no_locale_counterexample :
    demoReg.fmt_locale = none ∧
    Unit.format_babel demoReg emptyUnit ("~") none = .ok "" :=
  ⟨rfl, rfl⟩

/-- C4 (amended): when no locale is resolvable (no explicit argument and no
registry default), `format_babel` fails with the MissingLocale ValueError
before rendering, except when the effective spec contains the short-form
flag and the unit is dimensionless, in which case the empty string is
returned without resolving a locale. -/
theorem format_babel_requires_locale (reg : Registry) (self : Unit) (spec0 : String)
    (h : reg.fmt_locale = none) :
    (¬((effSpec reg spec0).data.contains '~' = true ∧ Unit.dimensionless reg self = true) →
        Unit.format_babel reg self spec0 none
          = .error (.valueError ("Provide a `locale` value to localize translation."))) ∧
    ((effSpec reg spec0).data.contains '~' = true → Unit.dimensionless reg self = true →
        Unit.format_babel reg self spec0 none = .ok "") := by
  constructor
  · intro hns
    by_cases h1 : (effSpec reg spec0).data.contains '~' = true
    · have h2 : Unit.dimensionless reg self = false := by
        cases hd : Unit.dimensionless reg self
        · rfl
        · exact absurd ⟨h1, hd⟩ hns
      have hmem : '~' ∈ (effSpec reg spec0).data := by simpa using h1
      simp [Unit.format_babel, hmem, h2, resolveLocale, h]
    · have hmem : '~' ∉ (effSpec reg spec0).data := by simpa using h1
      simp [Unit.format_babel, hmem, resolveLocale, h]
  · intro h1 h2
    have hmem : '~' ∈ (effSpec reg spec0).data := by simpa using h1
    simp [Unit.format_babel, hmem, h2]

/-- C4 witness: a non-short-form spec with a meter unit and no resolvable
locale fails with the MissingLocale error. -/
theorem format_babel_requires_locale_inst :
    Unit.format_babel demoReg meterUnit ("P") none
      = .error (.valueError ("Provide a `locale` value to localize translation.")) :=
  (format_babel_requires_locale demoReg meterUnit ("P") rfl).1 (by decide)

/-- C7 counterexample: an operand of a registry-recognized upcast type that
does not define `__array_ufunc__` escapes the source's `hasattr` filter, so
the multiply dispatch is redispatched instead of declined — refuting
"declines whenever any operand belongs to an upcast type". -/
theorem array_ufunc_upcast_counterexample :
    demoReg.isUpcast upcastNoAttrArg.typeName = true ∧
    Unit.array_ufunc demoReg meterUnit ("multiply") ("__call__")
        [selfArg, upcastNoAttrArg] []
      = .redispatch ("multiply") [.qOne ⟨1, meterUnit.units⟩, .plain upcastNoAttrArg] [] :=
  ⟨rfl, rfl⟩

/-- C7 (amended): the hook declines when the dispatch method is not a plain
call; it declines whenever any operand that defines `__array_ufunc__`
belongs to a registry-recognized upcast type (operands lacking the attribute
are not inspected); otherwise, exactly for multiply, true-divide, divide and
floor-divide it substitutes every occurrence of `self` among the positional
operands with a unit-magnitude Quantity of `self` and redispatches, and for
every other operation kind it declines. -/
theorem array_ufunc_dispatch (reg : Registry) (self : Unit) (ufname method : String)
    (inputs kwargsVals : List ArrArg) :
    (method ≠ "__call__" →
        Unit.array_ufunc reg self ufname method inputs kwargsVals = .notImplemented) ∧
    (method = "__call__" →
      ((∃ a ∈ inputs ++ kwargsVals, a.hasUfunc = true ∧ reg.isUpcast a.typeName = true) →
          Unit.array_ufunc reg self ufname method inputs kwargsVals = .notImplemented) ∧
      ((∀ a ∈ inputs ++ kwargsVals, a.hasUfunc = true → reg.isUpcast a.typeName = false) →
        ((ufname = "true_divide" ∨ ufname = "divide" ∨ ufname = "floor_divide"
            ∨ ufname = "multiply") →
            Unit.array_ufunc reg self ufname method inputs kwargsVals
              = .redispatch ufname
                  (inputs.map (fun a => if a.isSelf then DispArg.qOne ⟨1, self.units⟩
                      else .plain a))
                  kwargsVals) ∧
        (¬(ufname = "true_divide" ∨ ufname = "divide" ∨ ufname = "floor_divide"
            ∨ ufname = "multiply") →
            Unit.array_ufunc reg self ufname method inputs kwargsVals
              = .notImplemented))) := by
  constructor
  · intro hm
    unfold Unit.array_ufunc
    rw [if_pos hm]
  · intro hm
    have hm' : ¬(method ≠ "__call__") := fun hh => hh hm
    constructor
    · rintro ⟨a, ha, h1, h2⟩
      have hany : ((inputs ++ kwargsVals).any
          fun a => a.hasUfunc && reg.isUpcast a.typeName) = true := by
        rw [List.any_eq_true]
        refine ⟨a, ha, ?_⟩
        rw [h1, h2]
        rfl
      unfold Unit.array_ufunc
      rw [if_neg hm', if_pos hany]
    · intro hall
      have hnot : ¬(((inputs ++ kwargsVals).any
          fun a => a.hasUfunc && reg.isUpcast a.typeName) = true) := by
        intro hcon
        rw [List.any_eq_true] at hcon
        obtain ⟨a, ha, hp⟩ := hcon
        rw [Bool.and_eq_true] at hp
        have hfalse := hall a ha hp.1
        rw [hfalse] at hp
        exact Bool.false_ne_true hp.2
      constructor
      · intro hop
        unfold Unit.array_ufunc
        rw [if_neg hm', if_neg hnot, if_pos hop]
      · intro hop
        unfold Unit.array_ufunc
        rw [if_neg hm', if_neg hnot, if_neg hop]

/-- C7 witness: an upcast operand that defines `__array_ufunc__` makes the
hook decline; an add dispatch is declined unconditionally; a multiply
dispatch substitutes `self` with `Quantity(1, self)` and redispatches. -/
theorem array_ufunc_dispatch_inst :
    Unit.array_ufunc demoReg meterUnit ("multiply") ("__call__")
        [selfArg, upcastAttrArg] [] = .notImplemented ∧
    Unit.array_ufunc demoReg meterUnit ("add") ("__call__") [selfArg] []
      = .notImplemented ∧
    Unit.array_ufunc demoReg meterUnit ("multiply") ("__call__") [selfArg] []
      = .redispatch ("multiply") [.qOne ⟨1, meterUnit.units⟩] [] := by
  refine ⟨?_, ?_, ?_⟩
  · exact ((array_ufunc_dispatch demoReg meterUnit ("multiply") ("__call__")
      [selfArg, upcastAttrArg] []).2 rfl).1 ⟨upcastAttrArg, by decide, rfl, rfl⟩
  · exact ((((array_ufunc_dispatch demoReg meterUnit ("add") ("__call__")
      [selfArg] []).2 rfl).2 (by decide)).2 (by decide))
  · exact ((((array_ufunc_dispatch demoReg meterUnit ("multiply") ("__call__")
      [selfArg] []).2 rfl).2 (by decide)).1 (Or.inr (Or.inr (Or.inr rfl))))

end Pint
